import Mathlib

/-!
Shallow embedding of the OSS liquid-handling orchestration library
(`oss_utils.py`, `oss_lib.py`): domain model, experiment state, the
resource allocator and the action functions, together with theorems
checking the claims of the specification against this embedding.

The mutable Python `Location` objects are modelled by a heap (a total map
from object references to `Location` values) carried inside the
`Experiment` state; in-place field assignment is a heap update and the
binding table stores references, so object aliasing behaves as in the
source.  Operator and liquid-handler calls are collected in a command
trace.  Exceptions are modelled with `Except`.
-/

namespace Oss

/-- Equipment kinds (`oss_utils.Equipment`). -/
inductive Equipment where
  | workbench
  | liquid_handler
  | incubator
  | spectroscope
deriving DecidableEq

def WORKBENCH_MAX_SLOTS : Nat := 20

def LH_MAX_SLOTS : Nat := 12

/-- Labware kinds (`oss_utils.Labware`). -/
inductive Labware where
  | reservoir
  | wellplate
  | testtube
  | cuvette
deriving DecidableEq

/-- Source `Labware.max_capacity` from `oss_utils.py`. -/
def Labware.max_capacity : Labware → Nat
  | .reservoir => 1000
  | .wellplate => 50
  | .testtube => 100
  | .cuvette => 100

/-- Source `Labware.min_capacity` from `oss_utils.py`. -/
def Labware.min_capacity : Labware → Nat
  | .reservoir => 50
  | .wellplate => 10
  | .testtube => 10
  | .cuvette => 10

/-- Python `for labware in Labware` iterates the members in definition
order. -/
def Labware.members : List Labware :=
  [.reservoir, .wellplate, .testtube, .cuvette]

def WELLPLATE_MAX_WELLS : Nat := 96

def WELLPLATE_ROW_SIZE : Nat := 8

/-- Source `well_id_int_to_str` from `oss_utils.py`:
`chr(well_id // WELLPLATE_ROW_SIZE + ord('A')) + str(well_id % WELLPLATE_ROW_SIZE)`;
`ord('A') = 65`. -/
def well_id_int_to_str (well_id : Nat) : String :=
  String.mk [Char.ofNat (well_id / WELLPLATE_ROW_SIZE + 65)] ++
    toString (well_id % WELLPLATE_ROW_SIZE)

/-- Python `int(s)` restricted to the inputs that occur here: a nonempty
string of decimal digits parses to a number, anything else raises
`ValueError`, modelled as `none`. -/
def pyIntDigitsAux : List Char → Nat → Option Nat
  | [], acc => some acc
  | c :: cs, acc =>
    if c.isDigit then pyIntDigitsAux cs (acc * 10 + (c.toNat - 48)) else none

def pyIntDigits (s : List Char) : Option Nat :=
  match s with
  | [] => none
  | _ => pyIntDigitsAux s 0

/-- Source `well_id_str_to_int` from `oss_utils.py`, exactly as written:
`int(well_id[1:]) + ord(well_id[0].upper()) - ord('A') * WELLPLATE_ROW_SIZE`.
By Python operator precedence the product `ord('A') * WELLPLATE_ROW_SIZE`
binds first, so the expression is `int(rest) + ord(first) - 520`.
Accessing `well_id[0]` of an empty string raises `IndexError`, modelled
as `none`. -/
def well_id_str_to_int (well_id : String) : Option Int :=
  match well_id.data with
  | [] => none
  | c :: rest =>
    match pyIntDigits rest with
    | none => none
    | some d =>
      some ((d : Int) + (c.toUpper.toNat : Int) - 65 * (WELLPLATE_ROW_SIZE : Int))

/-- Claim C10: for every well index `n < 96` the conversion
`well_id_str_to_int (well_id_int_to_str n)` is claimed to give back `n`.
It never does: the missing parentheses in `well_id_str_to_int` make the
composite equal `n % 8 + n / 8 + 65 - 520`, e.g. `-455` at `n = 0`.  This
theorem evaluates the code at the failing input and shows the round trip
fails for every `n < 96`. -/
theorem claimC10_roundtrip_fails :
    well_id_str_to_int (well_id_int_to_str 0) = some (-455) ∧
    ((List.range 96).all
      (fun n => well_id_str_to_int (well_id_int_to_str n) != some (n : Int))) = true := by
  decide

/-- Physical location (`oss_utils.Location`): a mutable Python object
with four fields. -/
structure Location where
  equipment : Equipment
  slot : Nat
  labware : Labware
  well_id : String
deriving DecidableEq

/-- Fallback value for accesses the source can never perform (Python
would raise before reading it). -/
instance : Inhabited Location :=
  ⟨⟨Equipment.workbench, 0, Labware.reservoir, ""⟩⟩

/-- Logical location id (`oss_utils.LocationId`): an opaque client-chosen
name.  It is a distinct type from `Nat`, as in the source, where a
`LocationId` object never compares equal to an `int`. -/
structure LId where
  id : String
deriving DecidableEq

/-- Reference to a `Location` object on the heap. -/
abbrev Ref := Nat

/-- Lookup in the insertion-ordered binding dictionary
(`self.location_map[loc_id]`). -/
def dictLookup : List (LId × Ref) → LId → Option Ref
  | [], _ => none
  | p :: m, loc_id => if p.1 = loc_id then some p.2 else dictLookup m loc_id

/-- Deletion `del self.location_map[loc_id]`: removes the (unique) entry of the
key. -/
def dictDelete : List (LId × Ref) → LId → List (LId × Ref)
  | [], _ => []
  | p :: m, loc_id => if p.1 = loc_id then m else p :: dictDelete m loc_id

/-- Python dict keys are unique; states reachable in the source satisfy
this. -/
def keysNodup : List (LId × Ref) → Bool
  | [] => true
  | p :: m => (dictLookup m p.1).isNone && keysNodup m

/-- Per-experiment state (`oss_lib.Experiment`) together with the heap of
`Location` objects it refers to.  `heap` is total: every reference stored
in `location_map` was produced by a constructor call, so dereferencing
never fails in the source. -/
structure Experiment where
  heap : Ref → Location
  heap_size : Nat
  location_map : List (LId × Ref)
  lh_slots_used : List Nat

/-- In-place assignment to a field of the `Location` object at `r`. -/
def Experiment.setObj (e : Experiment) (r : Ref) (loc : Location) : Experiment :=
  { e with heap := fun i => if i = r then loc else e.heap i }

/-- Constructor call `Location(...)`: a fresh object on the heap. -/
def Experiment.alloc (e : Experiment) (loc : Location) : Experiment × Ref :=
  ({ e with heap := fun i => if i = e.heap_size then loc else e.heap i,
            heap_size := e.heap_size + 1 },
   e.heap_size)

/-- Source `Experiment.is_exist_location`: `loc_id in self.location_map`. -/
def Experiment.is_exist_location (e : Experiment) (loc_id : LId) : Bool :=
  (dictLookup e.location_map loc_id).isSome

/-- Source `Experiment.get_location`: `self.location_map[loc_id]`; `none` models
the `KeyError` raised on a missing key. -/
def Experiment.get_location (e : Experiment) (loc_id : LId) : Option Location :=
  (dictLookup e.location_map loc_id).map e.heap

/-- Shorthand for `get_location` at call sites dominated by an existence
check, where the lookup cannot fail. -/
def Experiment.getLocD (e : Experiment) (loc_id : LId) : Location :=
  (e.get_location loc_id).getD default

/-- Exceptions raised by the source, one constructor per `raise` site
(plus the two runtime faults Python itself raises). -/
inductive Err where
  | locationAlreadyExists
  | locationDoesNotExist
  | destinationDoesNotExist
  | sourceDoesNotExist
  | someTargetDoesNotExist
  | noLabware
  | noEmptySlot
  | noEmptyWorkbenchSlot
  | notSameWellplate
  | keyError
  | attributeErrorRemoveLocation
  | valueErrorRemove
  | indexError
deriving DecidableEq

/-- Source `Experiment.set_location` applied to an already-constructed object:
fails when the id is bound, else records the binding and, for a
liquid-handler location, appends the slot to `lh_slots_used`. -/
def Experiment.set_location_ref (e : Experiment) (loc_id : LId) (r : Ref) :
    Except Err Experiment :=
  if e.is_exist_location loc_id then .error .locationAlreadyExists
  else if (e.heap r).equipment = .liquid_handler then
    .ok { e with location_map := e.location_map ++ [(loc_id, r)],
                 lh_slots_used := e.lh_slots_used ++ [(e.heap r).slot] }
  else
    .ok { e with location_map := e.location_map ++ [(loc_id, r)] }

/-- Source `Experiment.set_location` called with a freshly constructed
`Location` value. -/
def Experiment.set_location (e : Experiment) (loc_id : LId) (loc : Location) :
    Except Err Experiment :=
  let p := e.alloc loc
  p.1.set_location_ref loc_id p.2

/-- Source `Experiment.release_location`: `list.remove` raises `ValueError` when
the element is absent, modelled by `valueErrorRemove`. -/
def Experiment.release_location (e : Experiment) (loc_id : LId) :
    Except Err Experiment :=
  match dictLookup e.location_map loc_id with
  | none => .error .locationDoesNotExist
  | some r =>
    if (e.heap r).equipment = .liquid_handler then
      if e.lh_slots_used.contains (e.heap r).slot then
        .ok { e with lh_slots_used := e.lh_slots_used.erase (e.heap r).slot,
                     location_map := dictDelete e.location_map loc_id }
      else .error .valueErrorRemove
    else .ok { e with location_map := dictDelete e.location_map loc_id }

/-- Python `slot in self.location_map` in `get_empty_workbench_slot`
tests an `int` against `LocationId` keys; `LocationId` defines no
`__eq__`, so the test is always false. -/
def intEqLocationId (_slot : Nat) (_key : LId) : Bool := false

/-- Source `Experiment.get_empty_workbench_slot`. -/
def Experiment.get_empty_workbench_slot (e : Experiment) : Option Nat :=
  (List.range WORKBENCH_MAX_SLOTS).find?
    (fun slot => !(e.location_map.any (fun p => intEqLocationId slot p.1)))

/-- Source `Experiment.get_empty_slot`. -/
def Experiment.get_empty_slot (e : Experiment) : Option Nat :=
  (List.range LH_MAX_SLOTS).find? (fun slot => !(e.lh_slots_used.contains slot))

/-- List of the `(slot, well_id)` pairs of bound liquid-handler wellplate
locations, in binding-table iteration order (the dict built by the first
loop of `get_empty_well`). -/
def Experiment.lhWellplateEntries (e : Experiment) : List (Nat × String) :=
  e.location_map.filterMap
    (fun p =>
      if (e.heap p.2).equipment = .liquid_handler ∧ (e.heap p.2).labware = .wellplate then
        some ((e.heap p.2).slot, (e.heap p.2).well_id)
      else none)

/-- Key iteration order of the Python dict `slot_well_list`: first
occurrence order of the slots. -/
def firstOccurrences (l : List Nat) : List Nat :=
  l.foldl (fun acc s => if s ∈ acc then acc else acc ++ [s]) []

/-- Source `Experiment.get_empty_well`: scan already-placed wellplates for the
first well id (in index order 0..95) not yet bound in that slot. -/
def Experiment.get_empty_well (e : Experiment) : Option Location :=
  let entries := e.lhWellplateEntries
  (firstOccurrences (entries.map Prod.fst)).findSome?
    (fun slot =>
      (List.range WELLPLATE_MAX_WELLS).findSome?
        (fun well =>
          let well_str := well_id_int_to_str well
          if (entries.filterMap
                (fun p => if p.1 = slot then some p.2 else none)).contains well_str then
            none
          else some ⟨.liquid_handler, slot, .wellplate, well_str⟩))

/-- The best-fit loop of `OSS.__decide_location`:
`for labware in Labware: if labware.max_capacity() >= vol: if (not best_fit)
or (labware.max_capacity() < best_fit.max_capacity()): best_fit = labware`. -/
def bestFitLoop (vol : Nat) : Option Labware :=
  Labware.members.foldl
    (fun best_fit labware =>
      if labware.max_capacity ≥ vol then
        match best_fit with
        | none => some labware
        | some b =>
          if labware.max_capacity < b.max_capacity then some labware else best_fit
      else best_fit)
    none

/-- Source `OSS.__decide_location(exp, vol, num_dests)`.  The method only reads
the experiment state; it is embedded in state-passing style and returns
the state it leaves behind alongside the chosen location and the
`is_new` flag.  `none` from the combined labware choice corresponds to
the `raise Exception("No labware can hold the volume")` in the `else`
branch. -/
def OSS.decide_location (exp : Experiment) (vol : Nat) (num_dests : Nat) :
    Except Err ((Location × Bool) × Experiment) :=
  match (if num_dests > 1 ∧ Labware.wellplate.max_capacity > vol then
           some Labware.wellplate
         else bestFitLoop vol) with
  | none => .error .noLabware
  | some best_fit =>
    let empty_slot := exp.get_empty_slot
    if best_fit = .wellplate then
      match exp.get_empty_well with
      | some empty_well => .ok ((empty_well, false), exp)
      | none =>
        match empty_slot with
        | none => .error .noEmptySlot
        | some s =>
          .ok ((⟨.liquid_handler, s, best_fit, "A0"⟩, true), exp)
    else
      match empty_slot with
      | none => .error .noEmptySlot
      | some s =>
        .ok ((⟨.liquid_handler, s, best_fit, "A0"⟩, true), exp)

/-- Operator-channel commands (`self._operator.command(...)` call sites),
one constructor per f-string shape, capturing the location values
rendered at emission time. -/
inductive OpCmd where
  | moveInPlace (dest : Location)
  | relocate (src : Location) (dest : Location)
  | returnToStorage (src : Location)
  | discardContents (src : Location)
  | moveToSpectroscope (src : Location)
  | selectAbsorbance
  | setParameters
  | pressStart
  | uploadResults
  | moveWellplateTo (dest : Location)
  | moveToCuvette (src : Location)
  | moveCuvetteToSpectroscope
  | moveCuvetteTo (dest : Location)
deriving DecidableEq

/-- Device-level trace events: operator commands and liquid-handler proxy
calls.  `lhMovePipetteWaste` is the pipette move to `OSS._waste_reservoir`
(that class attribute names `Labware.waste_reservoir`, a member missing
from the `Labware` enum, so the fixed waste location is kept abstract). -/
inductive Cmd where
  | op (c : OpCmd)
  | lhMovePipette (loc : Location)
  | lhMovePipetteWaste
  | lhAspirate (vol : Nat)
  | lhDispense (vol : Nat)
  | lhDiscardTip
deriving DecidableEq

/-- Loop `for i in range(mix_count): aspirate(vol); dispense(vol)`. -/
def mixCycles (vol : Nat) (mix_count : Nat) : List Cmd :=
  (List.range mix_count).foldl
    (fun acc _ => acc ++ [Cmd.lhAspirate vol, Cmd.lhDispense vol]) []

/-- Source `OSS.mix(exp_id, dest_id, vol, mix_count)`, acting on the experiment
resolved from `exp_id`.  Returns the emitted command trace together with
the outcome.  Python default: `mix_count = 3`. -/
def OSS.mix (exp : Experiment) (dest_id : LId) (vol : Nat) (mix_count : Nat) :
    List Cmd × Except Err Experiment :=
  if ¬ exp.is_exist_location dest_id then ([], .error .destinationDoesNotExist)
  else
    match dictLookup exp.location_map dest_id with
    | none => ([], .error .keyError)
    | some destRef =>
      let dest := exp.heap destRef
      if dest.equipment ≠ .liquid_handler then
        match OSS.decide_location exp vol 1 with
        | .error err => ([], .error err)
        | .ok ((lh_dest, is_new), exp1) =>
          match exp1.set_location dest_id lh_dest with
          | .error err => ([], .error err)
          | .ok exp2 =>
            let cmds1 :=
              (if is_new then [Cmd.op (.moveInPlace lh_dest)] else []) ++
                [Cmd.op (.relocate dest lh_dest)]
            let cmds2 := Cmd.lhMovePipette lh_dest :: mixCycles vol mix_count
            -- move it back: `dest.equipment != liquid_handler` still holds,
            -- and the original object `dest` is passed to set_location
            match exp2.set_location_ref dest_id destRef with
            | .error err => (cmds1 ++ cmds2, .error err)
            | .ok exp3 =>
              (cmds1 ++ cmds2 ++
                 [Cmd.op (.relocate lh_dest dest), Cmd.lhDiscardTip],
               .ok exp3)
      else
        (Cmd.lhMovePipette dest :: mixCycles vol mix_count ++ [Cmd.lhDiscardTip],
         .ok exp)

/-- Source `OSS.discard(exp_id, vol, source_id, release_labware)`.  The
`release_labware` branch emits the return-to-storage command and then
calls `exp.remove_location(source_id)`; `Experiment` defines no attribute
`remove_location`, so Python raises `AttributeError` there.  Python
default: `release_labware = False`. -/
def OSS.discard (exp : Experiment) (vol : Nat) (source_id : LId)
    (release_labware : Bool) : List Cmd × Except Err Experiment :=
  if ¬ exp.is_exist_location source_id then ([], .error .sourceDoesNotExist)
  else
    match dictLookup exp.location_map source_id with
    | none => ([], .error .keyError)
    | some srcRef =>
      let src := exp.heap srcRef
      let cmds1 :=
        if src.equipment = .liquid_handler then
          [Cmd.lhMovePipette src, Cmd.lhAspirate vol,
           Cmd.lhMovePipetteWaste, Cmd.lhDispense vol]
        else [Cmd.op (.discardContents src)]
      if release_labware then
        (cmds1 ++ [Cmd.op (.returnToStorage src)], .error .attributeErrorRemoveLocation)
      else (cmds1, .ok exp)

/-- The rebinding loop of the single-wellplate branch of
`OSS.measure_absorbance` (source lines 556-559): all ids are rebound to
the one `dest` object (`destRef`), whose `well_id` field is overwritten
in place on every iteration. -/
def rebindLoop (exp : Experiment) (destRef : Ref) :
    List LId → Except Err Experiment
  | [] => .ok exp
  | loc_id :: rest =>
    match dictLookup exp.location_map loc_id with
    | none => .error .keyError
    | some r =>
      let exp1 := exp.setObj destRef
        { exp.heap destRef with well_id := (exp.heap r).well_id }
      match exp1.release_location loc_id with
      | .error err => .error err
      | .ok exp2 =>
        match exp2.set_location_ref loc_id destRef with
        | .error err => .error err
        | .ok exp3 => rebindLoop exp3 destRef rest

/-- The per-id measurement loop of the mixed-labware branch of
`OSS.measure_absorbance` (source lines 565-591). -/
def cuvetteLoop (exp : Experiment) :
    List LId → List Int → List Cmd × Except Err (List Int × Experiment)
  | [], results => ([], .ok (results, exp))
  | loc_id :: rest, results =>
    match dictLookup exp.location_map loc_id with
    | none => ([], .error .keyError)
    | some r =>
      let cmds1 :=
        [Cmd.op (.moveToCuvette (exp.heap r)), Cmd.op .moveCuvetteToSpectroscope,
         Cmd.op .selectAbsorbance, Cmd.op .setParameters,
         Cmd.op .pressStart, Cmd.op .uploadResults]
      let results1 := results ++ [1]
      let exp1 := exp.setObj r { exp.heap r with equipment := .workbench }
      match exp1.get_empty_workbench_slot with
      | none => (cmds1, .error .noEmptyWorkbenchSlot)
      | some s =>
        let exp2 := exp1.setObj r { exp1.heap r with slot := s }
        match exp2.release_location loc_id with
        | .error err => (cmds1, .error err)
        | .ok exp3 =>
          match exp3.set_location_ref loc_id r with
          | .error err => (cmds1, .error err)
          | .ok exp4 =>
            let cmds2 := cmds1 ++ [Cmd.op (.moveCuvetteTo (exp4.heap r))]
            let rec_result := cuvetteLoop exp4 rest results1
            (cmds2 ++ rec_result.1, rec_result.2)

/-- Source `OSS.measure_absorbance(exp_id, target_id, wavelength_range, blank_id,
...)`.  The many instrument-configuration keyword arguments do not affect
control flow or state (they are only logged) and are omitted.  Returns
the command trace and either the readings with the final state, or the
error raised.  Python default: `blank_id = []`. -/
def OSS.measure_absorbance (exp : Experiment) (target_id : List LId)
    (blank_id : List LId) : List Cmd × Except Err (List Int × Experiment) :=
  let target := target_id ++ blank_id
  if target.any (fun loc_id => !(exp.is_exist_location loc_id)) then
    ([], .error .someTargetDoesNotExist)
  else if target.all (fun loc_id => (exp.getLocD loc_id).labware = .wellplate) then
    -- `len(set([...slot...])) > 1` : more than one distinct slot
    if (firstOccurrences (target.map (fun loc_id => (exp.getLocD loc_id).slot))).length > 1 then
      ([], .error .notSameWellplate)
    else
      match target with
      | [] => ([], .error .indexError)  -- `target_id[0]` on an empty list
      | id0 :: _ =>
        match dictLookup exp.location_map id0 with
        | none => ([], .error .keyError)
        | some destRef =>
          let cmds1 :=
            [Cmd.op (.moveToSpectroscope (exp.heap destRef)),
             Cmd.op .selectAbsorbance, Cmd.op .setParameters,
             Cmd.op .pressStart, Cmd.op .uploadResults]
          let results : List Int := List.replicate target.length 1
          let exp1 := exp.setObj destRef
            { exp.heap destRef with equipment := .workbench }
          match exp1.get_empty_workbench_slot with
          | none => (cmds1, .error .noEmptyWorkbenchSlot)
          | some s =>
            let exp2 := exp1.setObj destRef { exp1.heap destRef with slot := s }
            match rebindLoop exp2 destRef target with
            | .error err => (cmds1, .error err)
            | .ok exp3 =>
              (cmds1 ++ [Cmd.op (.moveWellplateTo (exp3.heap destRef))],
               .ok (results, exp3))
  else
    cuvetteLoop exp target []

/-- An experiment whose id `d` is bound to a workbench (off-handler)
location: a test tube in workbench slot 3. -/
def c1exp : Experiment :=
  { heap := fun i => if i = 0 then ⟨.workbench, 3, .testtube, "A0"⟩ else default,
    heap_size := 1,
    location_map := [(⟨"d"⟩, 0)],
    lh_slots_used := [] }

/-- Claim C1: `mix` on a destination bound off the liquid handler is
claimed to complete normally and restore the pre-call binding.  The code
instead calls `set_location` on the still-bound id without releasing it
first, so every such call raises `Location already exists` before any
command is emitted.  Evaluation at a concrete off-handler destination. -/
theorem claimC1_mix_off_handler_raises :
    OSS.mix c1exp ⟨"d"⟩ 20 3 = ([], .error .locationAlreadyExists) := by
  rfl

/-- Two ids bound to wells `A0` and `A1` of one wellplate sitting in
liquid-handler slot 0 (`lh_slots_used` got one append per binding). -/
def c2exp : Experiment :=
  { heap := fun i =>
      if i = 0 then ⟨.liquid_handler, 0, .wellplate, "A0"⟩
      else if i = 1 then ⟨.liquid_handler, 0, .wellplate, "A1"⟩
      else default,
    heap_size := 2,
    location_map := [(⟨"t1"⟩, 0), (⟨"t2"⟩, 1)],
    lh_slots_used := [0, 0] }

/-- Claim C2: after `measure_absorbance` over ids sharing one wellplate,
each id is claimed to keep its own well reference.  The code rebinds
every id to the single shared `dest` object and overwrites the `well_id`
of that object in place on each loop iteration, so afterwards every id
carries the well of the last id: here `t1`, bound to well `A0` before the call, ends
bound to well `A1` (both ids end on the workbench in the common slot 0,
with the same well reference `A1`). -/
theorem claimC2_measure_aliasing :
    (c2exp.getLocD ⟨"t1"⟩).well_id = "A0" ∧
    (OSS.measure_absorbance c2exp [⟨"t1"⟩, ⟨"t2"⟩] []).2.map
        (fun p => ((p.2.getLocD ⟨"t1"⟩).well_id, (p.2.getLocD ⟨"t1"⟩).equipment,
                   (p.2.getLocD ⟨"t1"⟩).slot, (p.2.getLocD ⟨"t2"⟩).well_id)) =
      .ok ("A1", .workbench, 0, "A1") := by
  exact ⟨rfl, rfl⟩

/-- An experiment whose id `s` is bound to a reservoir in liquid-handler
slot 0. -/
def c3exp : Experiment :=
  { heap := fun i => if i = 0 then ⟨.liquid_handler, 0, .reservoir, "A0"⟩ else default,
    heap_size := 1,
    location_map := [(⟨"s"⟩, 0)],
    lh_slots_used := [0] }

/-- Claim C3: `discard(..., release_labware=True)` on a bound source is
claimed to complete normally and release the binding.  The code emits the
pipette sequence and the return-to-storage command, then calls
`exp.remove_location(source_id)` — an attribute `Experiment` does not
define — so every such call raises `AttributeError` and the binding is
never released.  Evaluation at a concrete bound liquid-handler source. -/
theorem claimC3_discard_release_raises :
    OSS.discard c3exp 10 ⟨"s"⟩ true =
      ([Cmd.lhMovePipette ⟨.liquid_handler, 0, .reservoir, "A0"⟩,
        Cmd.lhAspirate 10, Cmd.lhMovePipetteWaste, Cmd.lhDispense 10,
        Cmd.op (.returnToStorage ⟨.liquid_handler, 0, .reservoir, "A0"⟩)],
       .error .attributeErrorRemoveLocation) := by
  rfl

/-- Claim C7: binding an id that is already bound, without an intervening
release, fails with `Location already exists` (called `AlreadyBound` in the spec);
the raise happens before any write, so the existing binding is left
unchanged. -/
theorem claimC7_rebind_fails (e : Experiment) (loc_id : LId) (loc : Location)
    (h : e.is_exist_location loc_id = true) :
    e.set_location loc_id loc = .error .locationAlreadyExists := by
  simp only [Experiment.set_location, Experiment.alloc,
    Experiment.set_location_ref, Experiment.is_exist_location] at h ⊢
  simp [h]

/-- An experiment with id `x` already bound. -/
def c7exp : Experiment :=
  { heap := fun _ => default,
    heap_size := 1,
    location_map := [(⟨"x"⟩, 0)],
    lh_slots_used := [] }

/-- Witness for claim C7 at a concrete bound id. -/
theorem claimC7_rebind_fails_witness :
    c7exp.set_location ⟨"x"⟩ ⟨.workbench, 0, .testtube, "A0"⟩ =
      .error .locationAlreadyExists :=
  claimC7_rebind_fails c7exp ⟨"x"⟩ ⟨.workbench, 0, .testtube, "A0"⟩ (by decide)

lemma bestFitLoop_le50 (v : Nat) (h : v ≤ 50) :
    bestFitLoop v = some Labware.wellplate := by
  simp [bestFitLoop, Labware.members, Labware.max_capacity,
    show 1000 ≥ v by omega, show 50 ≥ v by omega, show 100 ≥ v by omega]

lemma bestFitLoop_mid (v : Nat) (h1 : 50 < v) (h2 : v ≤ 100) :
    bestFitLoop v = some Labware.testtube := by
  simp [bestFitLoop, Labware.members, Labware.max_capacity,
    show 1000 ≥ v by omega, show ¬ 50 ≥ v by omega, show 100 ≥ v by omega]

lemma bestFitLoop_high (v : Nat) (h1 : 100 < v) (h2 : v ≤ 1000) :
    bestFitLoop v = some Labware.reservoir := by
  simp [bestFitLoop, Labware.members, Labware.max_capacity,
    show 1000 ≥ v by omega, show ¬ 50 ≥ v by omega, show ¬ 100 ≥ v by omega]

lemma bestFitLoop_none (v : Nat) (h : 1000 < v) :
    bestFitLoop v = none := by
  simp [bestFitLoop, Labware.members, Labware.max_capacity,
    show ¬ 1000 ≥ v by omega, show ¬ 50 ≥ v by omega, show ¬ 100 ≥ v by omega]

/-- A location found by `get_empty_well` is a liquid-handler wellplate
well. -/
lemma get_empty_well_shape (e : Experiment) (w : Location)
    (h : e.get_empty_well = some w) :
    w.labware = .wellplate ∧ w.equipment = .liquid_handler := by
  unfold Experiment.get_empty_well at h
  obtain ⟨slot, -, h1⟩ := List.exists_of_findSome?_eq_some h
  obtain ⟨well, -, h2⟩ := List.exists_of_findSome?_eq_some h1
  simp only at h2
  split at h2
  · exact absurd h2 (by simp)
  · cases h2
    exact ⟨rfl, rfl⟩

/-- Anatomy of a successful `__decide_location` call: the labware choice
succeeded on some kind `lw`, the returned location has that labware kind,
and the experiment state is returned unchanged. -/
lemma decide_location_ok (e : Experiment) (v n : Nat) (loc : Location)
    (b : Bool) (e' : Experiment)
    (h : OSS.decide_location e v n = .ok ((loc, b), e')) :
    ∃ lw, (if n > 1 ∧ Labware.wellplate.max_capacity > v then
             some Labware.wellplate
           else bestFitLoop v) = some lw ∧
      loc.labware = lw ∧ e' = e := by
  unfold OSS.decide_location at h
  split at h
  · exact absurd h (by simp)
  case _ best_fit heq =>
    refine ⟨best_fit, heq, ?_⟩
    split at h
    case isTrue hwp =>
      cases hw : e.get_empty_well with
      | some w =>
        rw [hw] at h
        cases h
        have hs := get_empty_well_shape e _ hw
        exact ⟨hs.1.trans hwp.symm, rfl⟩
      | none =>
        rw [hw] at h
        cases hs : e.get_empty_slot with
        | none => rw [hs] at h; exact absurd h (by simp)
        | some s => rw [hs] at h; cases h; exact ⟨rfl, rfl⟩
    case isFalse =>
      cases hs : e.get_empty_slot with
      | none => rw [hs] at h; exact absurd h (by simp)
      | some s => rw [hs] at h; cases h; exact ⟨rfl, rfl⟩

/-- Claim C4: with more than one destination and a volume within the
maximum capacity of the wellplate, every location the allocation decision
returns has the wellplate labware kind.  (For `v` strictly below the
maximum the dedicated batching branch fires; at `v` equal to the maximum
the best-fit loop still selects the wellplate, the kind with the smallest
maximum capacity.) -/
theorem claimC4_batching_prefers_wellplate (e : Experiment) (v n : Nat)
    (loc : Location) (b : Bool) (e' : Experiment)
    (hn : n > 1) (hv : v ≤ Labware.wellplate.max_capacity)
    (h : OSS.decide_location e v n = .ok ((loc, b), e')) :
    loc.labware = .wellplate := by
  obtain ⟨lw, hlw, hloc, -⟩ := decide_location_ok e v n loc b e' h
  simp only [Labware.max_capacity] at hv hlw
  by_cases hlt : 50 > v
  · rw [if_pos ⟨hn, hlt⟩] at hlw
    cases hlw
    exact hloc
  · have hv50 : v = 50 := by omega
    rw [if_neg (by simp [hlt]), hv50, bestFitLoop_le50 50 (by omega)] at hlw
    cases hlw
    exact hloc

/-- An experiment with nothing bound and no slot in use. -/
def emptyExp : Experiment :=
  { heap := fun _ => default, heap_size := 0, location_map := [], lh_slots_used := [] }

/-- Witness for claim C4: volume 30, two destinations, empty state. -/
theorem claimC4_batching_prefers_wellplate_witness :
    (Location.mk .liquid_handler 0 .wellplate "A0").labware = .wellplate :=
  claimC4_batching_prefers_wellplate emptyExp 30 2
    ⟨.liquid_handler, 0, .wellplate, "A0"⟩ true emptyExp
    (by decide) (by decide) (by rfl)

/-- Claim C6 counterexample: the claim demands that the `[min, max]`
range of the returned labware cover the volume, but `__decide_location` never checks
`min_capacity`: for volume 5 it returns a wellplate whose minimum
capacity is 10 > 5. -/
theorem claimC6_counterexample :
    OSS.decide_location emptyExp 5 1 =
      .ok ((⟨.liquid_handler, 0, .wellplate, "A0"⟩, true), emptyExp) ∧
    ¬ Labware.min_capacity .wellplate ≤ 5 := by
  exact ⟨rfl, by decide⟩

/-- Claim C6 as amended: every location returned by the allocation
decision has a labware kind whose maximum capacity is at least the
requested volume (the lower bound of the capacity range is not
enforced). -/
theorem claimC6_amended_capacity_upper (e : Experiment) (v n : Nat)
    (loc : Location) (b : Bool) (e' : Experiment)
    (h : OSS.decide_location e v n = .ok ((loc, b), e')) :
    v ≤ loc.labware.max_capacity := by
  obtain ⟨lw, hlw, hloc, -⟩ := decide_location_ok e v n loc b e' h
  rw [hloc]
  by_cases hc : n > 1 ∧ Labware.wellplate.max_capacity > v
  · rw [if_pos hc] at hlw
    cases hlw
    simp only [Labware.max_capacity] at hc ⊢
    omega
  · rw [if_neg hc] at hlw
    rcases le_or_lt v 50 with h50 | h50
    · rw [bestFitLoop_le50 v h50] at hlw
      cases hlw
      simp only [Labware.max_capacity]
      omega
    · rcases le_or_lt v 100 with h100 | h100
      · rw [bestFitLoop_mid v h50 h100] at hlw
        cases hlw
        simp only [Labware.max_capacity]
        omega
      · rcases le_or_lt v 1000 with h1000 | h1000
        · rw [bestFitLoop_high v h100 h1000] at hlw
          cases hlw
          simp only [Labware.max_capacity]
          omega
        · rw [bestFitLoop_none v h1000] at hlw
          exact absurd hlw (by simp)

/-- Witness for the amended claim C6: volume 30 on the empty state. -/
theorem claimC6_amended_capacity_upper_witness :
    30 ≤ (Location.mk .liquid_handler 0 .wellplate "A0").labware.max_capacity :=
  claimC6_amended_capacity_upper emptyExp 30 1
    ⟨.liquid_handler, 0, .wellplate, "A0"⟩ true emptyExp rfl

/-- Claim C8: with a single destination, the allocation decision is
best-fit — no labware kind whose maximum capacity still accommodates the
volume has a strictly smaller maximum capacity than the returned kind —
and when no kind can hold the volume the call fails with
`No labware can hold the volume` (called `CapacityExceeded` in the spec). -/
theorem claimC8_best_fit (e : Experiment) (v : Nat) :
    (∀ loc b e', OSS.decide_location e v 1 = .ok ((loc, b), e') →
       ∀ lw : Labware, v ≤ lw.max_capacity →
         loc.labware.max_capacity ≤ lw.max_capacity) ∧
    ((∀ lw : Labware, lw.max_capacity < v) →
       OSS.decide_location e v 1 = .error .noLabware) := by
  constructor
  · intro loc b e' h lw hlw
    obtain ⟨lw0, hlw0, hloc, -⟩ := decide_location_ok e v 1 loc b e' h
    rw [if_neg (by simp)] at hlw0
    rw [hloc]
    rcases le_or_lt v 50 with h50 | h50
    · rw [bestFitLoop_le50 v h50] at hlw0
      cases hlw0
      cases lw <;> simp [Labware.max_capacity]
    · rcases le_or_lt v 100 with h100 | h100
      · rw [bestFitLoop_mid v h50 h100] at hlw0
        cases hlw0
        cases lw <;> simp [Labware.max_capacity] at hlw ⊢ <;> omega
      · rcases le_or_lt v 1000 with h1000 | h1000
        · rw [bestFitLoop_high v h100 h1000] at hlw0
          cases hlw0
          cases lw <;> simp [Labware.max_capacity] at hlw ⊢ <;> omega
        · rw [bestFitLoop_none v h1000] at hlw0
          exact absurd hlw0 (by simp)
  · intro hall
    have h1000 : 1000 < v := by
      have := hall .reservoir
      simpa [Labware.max_capacity] using this
    unfold OSS.decide_location
    rw [if_neg (by simp), bestFitLoop_none v h1000]

/-- Witness for claim C8: volume 60 picks the test tube (capacity 100),
minimal among kinds holding 60; volume 2000 fits nothing and fails. -/
theorem claimC8_best_fit_witness :
    (∀ lw : Labware, 60 ≤ lw.max_capacity →
       (Location.mk .liquid_handler 0 .testtube "A0").labware.max_capacity ≤
         lw.max_capacity) ∧
    OSS.decide_location emptyExp 2000 1 = .error .noLabware := by
  constructor
  · exact (claimC8_best_fit emptyExp 60).1
      ⟨.liquid_handler, 0, .testtube, "A0"⟩ true emptyExp rfl
  · exact (claimC8_best_fit emptyExp 2000).2 (by intro lw; cases lw <;> decide)

/-- Claim C9: a successful allocation decision leaves the binding table
and the slot-occupancy list unchanged, and an immediately repeated call
with the same volume and destination count returns the same location and
`is_new` flag. -/
theorem claimC9_allocator_pure (e : Experiment) (v n : Nat)
    (r : Location × Bool) (e' : Experiment)
    (h : OSS.decide_location e v n = .ok (r, e')) :
    (e'.location_map = e.location_map ∧ e'.lh_slots_used = e.lh_slots_used) ∧
    OSS.decide_location e' v n = OSS.decide_location e v n := by
  obtain ⟨loc, b⟩ := r
  obtain ⟨-, -, -, he⟩ := decide_location_ok e v n loc b e' h
  subst he
  exact ⟨⟨rfl, rfl⟩, rfl⟩

/-- Witness for claim C9 on the empty state at volume 30. -/
theorem claimC9_allocator_pure_witness :
    (emptyExp.location_map = emptyExp.location_map ∧
     emptyExp.lh_slots_used = emptyExp.lh_slots_used) ∧
    OSS.decide_location emptyExp 30 1 = OSS.decide_location emptyExp 30 1 :=
  claimC9_allocator_pure emptyExp 30 1
    (⟨.liquid_handler, 0, .wellplate, "A0"⟩, true) emptyExp rfl

lemma dictLookup_append (m1 m2 : List (LId × Ref)) (k : LId) :
    dictLookup (m1 ++ m2) k =
      match dictLookup m1 k with
      | some r => some r
      | none => dictLookup m2 k := by
  induction m1 with
  | nil => simp [dictLookup]
  | cons p m ih =>
    by_cases h : p.1 = k <;> simp [dictLookup, h, ih]

lemma dictLookup_dictDelete_ne (m : List (LId × Ref)) (k k' : LId)
    (h : k' ≠ k) : dictLookup (dictDelete m k) k' = dictLookup m k' := by
  induction m with
  | nil => simp [dictDelete]
  | cons p m ih =>
    by_cases h1 : p.1 = k
    · rw [show dictDelete (p :: m) k = m by simp [dictDelete, h1]]
      rw [show dictLookup (p :: m) k' = dictLookup m k' by
        simp [dictLookup]
        intro hh
        exact absurd (h1 ▸ hh).symm h]
    · simp only [dictDelete, if_neg h1, dictLookup, ih]

lemma dictLookup_none_dictDelete (m : List (LId × Ref)) (k k' : LId)
    (h : dictLookup m k' = none) : dictLookup (dictDelete m k) k' = none := by
  induction m with
  | nil => simpa [dictDelete] using h
  | cons p m ih =>
    simp only [dictLookup] at h
    by_cases h2 : p.1 = k'
    · rw [if_pos h2] at h
      exact absurd h (by simp)
    · rw [if_neg h2] at h
      by_cases h1 : p.1 = k
      · simpa [dictDelete, h1] using h
      · simp only [dictDelete, if_neg h1, dictLookup, if_neg h2]
        exact ih h

lemma dictLookup_dictDelete_self (m : List (LId × Ref)) (k : LId)
    (h : keysNodup m = true) : dictLookup (dictDelete m k) k = none := by
  induction m with
  | nil => simp [dictDelete, dictLookup]
  | cons p m ih =>
    simp only [keysNodup, Bool.and_eq_true, Option.isNone_iff_eq_none] at h
    by_cases h1 : p.1 = k
    · rw [show dictDelete (p :: m) k = m by simp [dictDelete, h1]]
      exact h1 ▸ h.1
    · simp only [dictDelete, if_neg h1, dictLookup, if_neg h1]
      exact ih h.2

lemma keysNodup_dictDelete (m : List (LId × Ref)) (k : LId)
    (h : keysNodup m = true) : keysNodup (dictDelete m k) = true := by
  induction m with
  | nil => simpa [dictDelete] using h
  | cons p m ih =>
    simp only [keysNodup, Bool.and_eq_true, Option.isNone_iff_eq_none] at h
    by_cases h1 : p.1 = k
    · rw [show dictDelete (p :: m) k = m by simp [dictDelete, h1]]
      exact h.2
    · simp only [dictDelete, if_neg h1, keysNodup, Bool.and_eq_true,
        Option.isNone_iff_eq_none]
      exact ⟨dictLookup_none_dictDelete m k p.1 h.1, ih h.2⟩

lemma keysNodup_append_single (m : List (LId × Ref)) (k : LId) (r : Ref)
    (hm : keysNodup m = true) (hk : dictLookup m k = none) :
    keysNodup (m ++ [(k, r)]) = true := by
  induction m with
  | nil => simp [keysNodup, dictLookup]
  | cons p m ih =>
    simp only [keysNodup, Bool.and_eq_true, Option.isNone_iff_eq_none] at hm
    simp only [dictLookup] at hk
    by_cases h2 : p.1 = k
    · rw [if_pos h2] at hk
      exact absurd hk (by simp)
    · rw [if_neg h2] at hk
      simp only [List.cons_append, keysNodup, Bool.and_eq_true,
        Option.isNone_iff_eq_none]
      refine ⟨?_, ih hm.2 hk⟩
      show dictLookup (m ++ [(k, r)]) p.1 = none
      rw [dictLookup_append]
      rw [hm.1]
      have hne : ¬ k = p.1 := fun hh => h2 hh.symm
      simp [dictLookup, hne]

/-- Fact: `get_empty_workbench_slot` always returns slot 0: the membership test
compares an `int` slot with `LocationId` keys and is never true. -/
lemma get_empty_workbench_slot_eq (e : Experiment) :
    e.get_empty_workbench_slot = some 0 := by
  unfold Experiment.get_empty_workbench_slot
  rw [show List.range WORKBENCH_MAX_SLOTS =
        0 :: [1, 2, 3, 4, 5, 6, 7, 8, 9, 10, 11, 12, 13, 14, 15, 16, 17, 18, 19] from by
      decide]
  rw [List.find?_cons_of_pos]
  simp [intEqLocationId, List.any_eq_true]

/-- The state left by one iteration of the cuvette measurement loop on
id `loc_id` bound to object `r`: the object is moved to workbench slot 0
in place, and the id is released and rebound to the same object. -/
def cuvetteStepState (e : Experiment) (loc_id : LId) (r : Ref) : Experiment :=
  let exp1 := e.setObj r { e.heap r with equipment := .workbench }
  let exp2 := exp1.setObj r { exp1.heap r with slot := 0 }
  { exp2 with location_map := dictDelete e.location_map loc_id ++ [(loc_id, r)] }

lemma cuvetteLoop_cons_eq (e : Experiment) (loc_id : LId) (rest : List LId)
    (acc : List Int) (r : Ref)
    (hr : dictLookup e.location_map loc_id = some r)
    (hnd : keysNodup e.location_map = true) :
    cuvetteLoop e (loc_id :: rest) acc =
      (([Cmd.op (.moveToCuvette (e.heap r)), Cmd.op .moveCuvetteToSpectroscope,
         Cmd.op .selectAbsorbance, Cmd.op .setParameters,
         Cmd.op .pressStart, Cmd.op .uploadResults] ++
        [Cmd.op (.moveCuvetteTo ((cuvetteStepState e loc_id r).heap r))]) ++
          (cuvetteLoop (cuvetteStepState e loc_id r) rest (acc ++ [1])).1,
       (cuvetteLoop (cuvetteStepState e loc_id r) rest (acc ++ [1])).2) := by
  have hdel : dictLookup (dictDelete e.location_map loc_id) loc_id = none :=
    dictLookup_dictDelete_self e.location_map loc_id hnd
  simp [cuvetteLoop, hr, Experiment.setObj, get_empty_workbench_slot_eq,
    Experiment.release_location, Experiment.set_location_ref,
    Experiment.is_exist_location, hdel, cuvetteStepState]

lemma cuvetteLoop_ok (ids : List LId) :
    ∀ (e : Experiment) (acc : List Int),
      keysNodup e.location_map = true →
      (∀ loc_id ∈ ids, e.is_exist_location loc_id = true) →
      ∃ tr e', cuvetteLoop e ids acc =
        (tr, .ok (acc ++ List.replicate ids.length 1, e')) := by
  induction ids with
  | nil =>
    intro e acc hnd hb
    exact ⟨[], e, by simp [cuvetteLoop]⟩
  | cons loc_id rest ih =>
    intro e acc hnd hb
    obtain ⟨r, hr⟩ : ∃ r, dictLookup e.location_map loc_id = some r := by
      have hex := hb loc_id (by simp)
      rw [Experiment.is_exist_location] at hex
      cases hdl : dictLookup e.location_map loc_id
      · rw [hdl] at hex
        exact absurd hex (by simp)
      · exact ⟨_, rfl⟩
    have hmap4 : (cuvetteStepState e loc_id r).location_map =
        dictDelete e.location_map loc_id ++ [(loc_id, r)] := rfl
    have hnd4 : keysNodup (cuvetteStepState e loc_id r).location_map = true := by
      rw [hmap4]
      exact keysNodup_append_single _ _ _ (keysNodup_dictDelete _ _ hnd)
        (dictLookup_dictDelete_self _ _ hnd)
    have hb4 : ∀ x ∈ rest, (cuvetteStepState e loc_id r).is_exist_location x = true := by
      intro x hx
      rw [Experiment.is_exist_location, hmap4, dictLookup_append]
      by_cases hxk : x = loc_id
      · subst hxk
        rw [dictLookup_dictDelete_self _ _ hnd]
        simp [dictLookup]
      · rw [dictLookup_dictDelete_ne _ _ _ hxk]
        have hx2 := hb x (by simp [hx])
        rw [Experiment.is_exist_location] at hx2
        cases hdl : dictLookup e.location_map x
        · rw [hdl] at hx2
          exact absurd hx2 (by simp)
        · simp
    obtain ⟨tr', e'', hrec⟩ := ih (cuvetteStepState e loc_id r) (acc ++ [1]) hnd4 hb4
    exact ⟨([Cmd.op (.moveToCuvette (e.heap r)), Cmd.op .moveCuvetteToSpectroscope,
             Cmd.op .selectAbsorbance, Cmd.op .setParameters,
             Cmd.op .pressStart, Cmd.op .uploadResults] ++
             [Cmd.op (.moveCuvetteTo ((cuvetteStepState e loc_id r).heap r))]) ++ tr',
           e'', by
      rw [cuvetteLoop_cons_eq e loc_id rest acc r hr hnd, hrec]
      simp [List.replicate_succ]⟩

/-- Two ids bound to wells of two different wellplates, in liquid-handler
slots 0 and 1. -/
def c5exp : Experiment :=
  { heap := fun i =>
      if i = 0 then ⟨.liquid_handler, 0, .wellplate, "A0"⟩
      else if i = 1 then ⟨.liquid_handler, 1, .wellplate, "A0"⟩
      else default,
    heap_size := 2,
    location_map := [(⟨"u1"⟩, 0), (⟨"u2"⟩, 1)],
    lh_slots_used := [0, 1] }

/-- Claim C5 counterexample: for targets on two different wellplates —
locations spanning more than one labware item — the claim says the call
does not fail with a same-wellplate error, but the code raises
`All target locations must be in the same well plate` whenever every
target is in wellplate labware and more than one slot is involved. -/
theorem claimC5_counterexample :
    OSS.measure_absorbance c5exp [⟨"u1"⟩, ⟨"u2"⟩] [] =
      ([], .error .notSameWellplate) := by
  rfl

/-- Claim C5 as amended: for every nonempty list of bound target ids that
are not all in wellplate labware (with unique binding keys, as Python
dicts guarantee), `measure_absorbance` takes the one-at-a-time cuvette
path and succeeds with exactly one reading per id; targets that all sit
in wellplate labware but in more than one slot instead fail with the
same-wellplate error. -/
theorem claimC5_amended_mixed_labware (e : Experiment) (tid : List LId)
    (hne : tid ≠ [])
    (hnd : keysNodup e.location_map = true)
    (hb : ∀ loc_id ∈ tid, e.is_exist_location loc_id = true)
    (hmix : ¬ ∀ loc_id ∈ tid, (e.getLocD loc_id).labware = .wellplate) :
    ∃ tr e', OSS.measure_absorbance e tid [] =
      (tr, .ok (List.replicate tid.length 1, e')) := by
  have hany : (tid.any (fun loc_id => !(e.is_exist_location loc_id))) = false := by
    cases hc : tid.any (fun loc_id => !(e.is_exist_location loc_id))
    · rfl
    · rw [List.any_eq_true] at hc
      obtain ⟨x, hx, hpx⟩ := hc
      rw [hb x hx] at hpx
      exact absurd hpx (by simp)
  have hall : (tid.all (fun loc_id => (e.getLocD loc_id).labware = .wellplate)) = false := by
    cases hc : tid.all (fun loc_id => (e.getLocD loc_id).labware = .wellplate)
    · rfl
    · refine absurd ?_ hmix
      intro x hx
      have := (List.all_eq_true.mp hc) x hx
      simpa using this
  obtain ⟨tr, e', h⟩ := cuvetteLoop_ok tid e [] hnd hb
  refine ⟨tr, e', ?_⟩
  unfold OSS.measure_absorbance
  simp only [List.append_nil, hany, hall, Bool.false_eq_true, if_false]
  simpa using h

/-- Two ids bound to distinct labware kinds (a test tube and a cuvette)
in liquid-handler slots 0 and 1. -/
def c5wexp : Experiment :=
  { heap := fun i =>
      if i = 0 then ⟨.liquid_handler, 0, .testtube, "A0"⟩
      else if i = 1 then ⟨.liquid_handler, 1, .cuvette, "A0"⟩
      else default,
    heap_size := 2,
    location_map := [(⟨"w1"⟩, 0), (⟨"w2"⟩, 1)],
    lh_slots_used := [0, 1] }

/-- Witness for the amended claim C5 on a concrete mixed-labware input. -/
theorem claimC5_amended_mixed_labware_witness :
    ∃ tr e', OSS.measure_absorbance c5wexp [⟨"w1"⟩, ⟨"w2"⟩] [] =
      (tr, .ok (List.replicate 2 1, e')) :=
  claimC5_amended_mixed_labware c5wexp [⟨"w1"⟩, ⟨"w2"⟩] (by decide) (by decide)
    (by decide) (by decide)
